import Mathlib

/-!
Verification development for the hermes-go conversational-agent core.

The definitions below are a shallow embedding of the Go source:

* src/agent/agent.go — the Agent (conversation manager), its blocking Run
  loop, the streaming RunStream loop, tool registry flattening and lookup;
* the tools package helper (CreateToolFromMethod and its helpers
  goTypeToJSONSchemaType, convertJSONValueToGoType) — the tool schema
  deriver and the runtime argument marshaling of the derived executor.

Conventions of this embedding:

* Go machine integers in this code path never overflow in any operation we
  model (there is no arithmetic on them), so Go int is modelled as Int.
* JSON numbers are decoded by Go encoding/json into float64; every number
  appearing in the properties we verify is exactly representable, so JSON
  numbers are modelled as Rat and the conversion int(f) as truncation
  toward zero.
* Fallible Go functions returning (T, error) are modelled as
  Except String T.
* context.Context (cooperative cancellation), logging, timestamps
  (CreatedAt), token-usage counters and the audio/thinking payload fields
  of ModelResponse are dropped: no verified property depends on them.
* Go maps are modelled as association lists; properties never depend on
  map iteration order.
-/

namespace Hermes

/-- A tool call requested by the model (tools.ToolCall). -/
structure ToolCall where
  id : String
  name : String
  arguments : String
deriving DecidableEq

/-- An image attachment (models.Image); payload fields are irrelevant here. -/
structure Image where
  url : String := ""
deriving DecidableEq

/-- An audio attachment (models.Audio); payload fields are irrelevant here. -/
structure AudioClip where
  dataRef : String := ""
deriving DecidableEq

/-- A media attachment (models.Media interface): either an image or an audio
clip, distinguished by GetType in the Go source. -/
inductive Media where
  | image (i : Image)
  | audio (a : AudioClip)
deriving DecidableEq

/-- One entry of the conversation history (models.Message). -/
structure Message where
  role : String := ""
  content : String := ""
  toolCallId : String := ""
  toolCalls : List ToolCall := []
  images : List Image := []
  audios : List AudioClip := []
deriving DecidableEq

/-- A response from the model (models.ModelResponse). Usage, CreatedAt,
Audio and Thinking are dropped: no verified property depends on them. -/
structure ModelResponse where
  event : String := ""
  data : String := ""
  toolCalls : List ToolCall := []
deriving DecidableEq

/-- One named property of a derived JSON schema: the entry
name maps to type and description in the properties map built by
CreateToolFromMethod. -/
structure Property where
  name : String
  schemaType : String
  description : String
deriving DecidableEq

/-- The parameter schema assembled by CreateToolFromMethod: a JSON object
with a properties map and a required list (the constant "type": "object"
wrapper is implicit). -/
structure Schema where
  properties : List Property := []
  required : List String := []
deriving DecidableEq

/-- A callable tool (tools.Tool): name, description, parameter schema and
executor. The executor maps a raw argument payload to a result payload or
an invocation error. -/
structure Tool where
  name : String
  description : String := ""
  parameters : Schema := {}
  execute : String → Except String String

/-- A capability bundle (tools.ToolKit). In the Go source a ToolKit value is
either a single Tool (detected by the type assertion in processTools) or a
provider whose Tools method yields a list of Tools; the kit constructor
carries that list — what the bundle's own Tools method would return.
Note that processTools never retrieves it: see Agent.processTools. -/
inductive ToolKit where
  | single (t : Tool)
  | kit (ts : List Tool)

/-- The zero value of the Tool record, as produced by the failed type
assertion in processTools. In Go its Execute field is nil and invoking it
would panic; no property of this development invokes it, and the embedding
gives it an always-failing executor in place of the nil function value. -/
def zeroTool : Tool :=
  { name := "", description := "", parameters := {},
    execute := fun _ => Except.error "nil executor invoked" }

/-! ## Tool schema deriver: Go types and JSON schema primitives -/

/-- The fragment of reflect.Type relevant to the deriver: the Kind of the
parameter type, plus the element type for slices and (string-keyed) maps.
The iface constructor stands for interface types (the element type of the
substituted zero-value collections); every kind outside this grammar
behaves like iface in the functions below, i.e. falls to the default
branch of each Go switch. -/
inductive GoType where
  | int | int8 | int16 | int32 | int64
  | uint | uint8 | uint16 | uint32 | uint64
  | float32 | float64
  | str | bool
  | slice (elem : GoType)
  | mapStr (elem : GoType)
  | iface
deriving DecidableEq

/-- Rendering of a GoType the way fmt's percent-v verb prints the
corresponding reflect.Type, used in derivation / conversion error texts. -/
def GoType.typeName : GoType → String
  | .int => "int"
  | .int8 => "int8"
  | .int16 => "int16"
  | .int32 => "int32"
  | .int64 => "int64"
  | .uint => "uint"
  | .uint8 => "uint8"
  | .uint16 => "uint16"
  | .uint32 => "uint32"
  | .uint64 => "uint64"
  | .float32 => "float32"
  | .float64 => "float64"
  | .str => "string"
  | .bool => "bool"
  | .slice e => "[]" ++ e.typeName
  | .mapStr e => "map[string]" ++ e.typeName
  | .iface => "interface \x7b\x7d"

/-- goTypeToJSONSchemaType from the tools helper: maps a parameter type to
a JSON schema primitive, or none for the default branch of the Go switch.
The Go switch lists only the signed integer kinds Int through Int64; the
unsigned kinds fall to the default branch. -/
def goTypeToJSONSchemaType : GoType → Option String
  | .int | .int8 | .int16 | .int32 | .int64 => some "integer"
  | .float32 | .float64 => some "number"
  | .str => some "string"
  | .bool => some "boolean"
  | .slice _ => some "array"
  | .mapStr _ => some "object"
  | _ => none

/-- Lookup in the paramDescs map of CreateToolFromMethod; a missing key
yields the Go zero value, the empty string. -/
def lookupDesc (descs : List (String × String)) (name : String) : String :=
  match descs.find? (fun p => p.1 = name) with
  | some p => p.2
  | none => ""

/-- The schema-assembly loop of CreateToolFromMethod: for each declared
parameter (name, type) in order, map the type to a schema primitive —
failure rejects the tool with an unsupported-parameter-type derivation
error — and record the property with its documented description. -/
def buildProperties : List (String × GoType) → List (String × String) →
    Except String (List Property)
  | [], _ => Except.ok []
  | (name, t) :: rest, descs =>
    match goTypeToJSONSchemaType t with
    | none => Except.error ("unsupported parameter type: " ++ t.typeName)
    | some st =>
      match buildProperties rest descs with
      | Except.error e => Except.error e
      | Except.ok ps =>
        Except.ok ({ name := name, schemaType := st,
                     description := lookupDesc descs name } :: ps)

/-! ## Tool schema deriver: runtime argument marshaling -/

/-- A decoded JSON value, as produced by encoding/json unmarshaling into
interface values: numbers arrive as float64 (modelled as Rat). -/
inductive JSONValue where
  | null
  | num (q : Rat)
  | str (s : String)
  | bool (b : Bool)
  | arr (elems : List JSONValue)
  | obj (entries : List (String × JSONValue))

/-- A concrete Go value produced by argument conversion. Collections carry
their Go element type, since the substituted zero value for an optional
collection parameter is always interface-typed in the source. -/
inductive GoValue where
  | int (n : Int)
  | float (q : Rat)
  | str (s : String)
  | bool (b : Bool)
  | slice (elem : GoType) (elems : List GoValue)
  | mapStr (elem : GoType) (entries : List (String × GoValue))

/-- Truncation toward zero, the semantics of the Go conversion int(f) on a
float64 value (modelled as a rational). -/
def ratTrunc (q : Rat) : Int := Int.tdiv q.num q.den

mutual

/-- convertJSONValueToGoType from the tools helper. The outer Go switch is
on the target type kind: only Int and Float64 are numeric cases, so every
other numeric kind falls to the default unsupported-type branch; a matched
kind whose payload value has the wrong dynamic type falls through to the
cannot-convert error. (The Go error text also interpolates the offending
value; the value rendering is omitted here as no property depends on it.) -/
def convertJSONValueToGoType : JSONValue → GoType → Except String GoValue
  | v, GoType.int =>
    match v with
    | JSONValue.num q => Except.ok (GoValue.int (ratTrunc q))
    | _ => Except.error ("cannot convert value to " ++ GoType.typeName GoType.int)
  | v, GoType.float64 =>
    match v with
    | JSONValue.num q => Except.ok (GoValue.float q)
    | _ => Except.error ("cannot convert value to " ++ GoType.typeName GoType.float64)
  | v, GoType.str =>
    match v with
    | JSONValue.str s => Except.ok (GoValue.str s)
    | _ => Except.error ("cannot convert value to " ++ GoType.typeName GoType.str)
  | v, GoType.bool =>
    match v with
    | JSONValue.bool b => Except.ok (GoValue.bool b)
    | _ => Except.error ("cannot convert value to " ++ GoType.typeName GoType.bool)
  | v, GoType.slice e =>
    match v with
    | JSONValue.arr elems =>
      match convertJSONList elems e with
      | Except.error err => Except.error err
      | Except.ok l => Except.ok (GoValue.slice e l)
    | _ => Except.error ("cannot convert value to " ++ GoType.typeName (GoType.slice e))
  | v, GoType.mapStr e =>
    match v with
    | JSONValue.obj entries =>
      match convertJSONObj entries e with
      | Except.error err => Except.error err
      | Except.ok l => Except.ok (GoValue.mapStr e l)
    | _ => Except.error ("cannot convert value to " ++ GoType.typeName (GoType.mapStr e))
  | _, t => Except.error ("unsupported type: " ++ t.typeName)

/-- Element-wise conversion of a decoded JSON array, stopping at the first
failing element, as the Go loop does. -/
def convertJSONList : List JSONValue → GoType → Except String (List GoValue)
  | [], _ => Except.ok []
  | v :: rest, e =>
    match convertJSONValueToGoType v e with
    | Except.error err => Except.error err
    | Except.ok gv =>
      match convertJSONList rest e with
      | Except.error err => Except.error err
      | Except.ok l => Except.ok (gv :: l)

/-- Entry-wise conversion of a decoded JSON object, stopping at the first
failing entry, as the Go loop does. -/
def convertJSONObj : List (String × JSONValue) → GoType →
    Except String (List (String × GoValue))
  | [], _ => Except.ok []
  | (k, v) :: rest, e =>
    match convertJSONValueToGoType v e with
    | Except.error err => Except.error err
    | Except.ok gv =>
      match convertJSONObj rest e with
      | Except.error err => Except.error err
      | Except.ok l => Except.ok ((k, gv) :: l)

end

/-- The zero value substituted by the derived executor for a missing
optional parameter. For the integer kinds the source appends the untyped
constant 0 (a Go int), for the float kinds 0.0 (a float64), and for
collections the interface-typed empty collection, regardless of the
declared element type. Kinds outside the switch produce the
optional-parameter-not-supported error. -/
def zeroValue (name : String) : GoType → Except String GoValue
  | GoType.str => Except.ok (GoValue.str "")
  | GoType.int | GoType.int8 | GoType.int16 | GoType.int32 | GoType.int64 =>
    Except.ok (GoValue.int 0)
  | GoType.float32 | GoType.float64 => Except.ok (GoValue.float 0)
  | GoType.bool => Except.ok (GoValue.bool false)
  | GoType.slice _ => Except.ok (GoValue.slice GoType.iface [])
  | GoType.mapStr _ => Except.ok (GoValue.mapStr GoType.iface [])
  | t => Except.error ("optional Parameter " ++ name ++ " with type " ++
      t.typeName ++ " not supported")

/-- Lookup of a declared parameter in the decoded argument map. -/
def lookupArg (argMap : List (String × JSONValue)) (name : String) :
    Option JSONValue :=
  (argMap.find? (fun p => p.1 = name)).map (fun p => p.2)

/-- The per-parameter body of the derived executor's argument loop: a
present value is converted to the declared type; an absent required
parameter is a missing-parameter error; an absent optional parameter is
substituted with its zero value. -/
def buildArg1 (required : List String) (argMap : List (String × JSONValue))
    (name : String) (t : GoType) : Except String GoValue :=
  match lookupArg argMap name with
  | none =>
    if name ∈ required then
      Except.error ("missing required parameter: " ++ name)
    else
      zeroValue name t
  | some v =>
    match convertJSONValueToGoType v t with
    | Except.error e =>
      Except.error ("type conversion failed for " ++ name ++ ": " ++ e)
    | Except.ok gv => Except.ok gv

/-- The whole argument loop of the derived executor: declared parameters
are processed in order and the first failure aborts the call. -/
def buildArgs (required : List String) (argMap : List (String × JSONValue)) :
    List (String × GoType) → Except String (List GoValue)
  | [] => Except.ok []
  | (name, t) :: rest =>
    match buildArg1 required argMap name t with
    | Except.error e => Except.error e
    | Except.ok v =>
      match buildArgs required argMap rest with
      | Except.error e => Except.error e
      | Except.ok vs => Except.ok (v :: vs)

/-! ## Conversation manager (src/agent/agent.go) -/

/-- The Agent struct of src/agent/agent.go. The Model field is external and
is threaded separately into run and runStream as a function; the logging
settings are dropped. The field toolsCache embeds the internal lowercase
field that caches the flattened tool list. -/
structure Agent where
  messages : List Message := []
  systemMessage : String := ""
  description : String := ""
  goal : String := ""
  role : String := ""
  markdown : Bool := false
  tools : List ToolKit := []
  isInit : Bool := false
  toolsCache : List Tool := []

/-- processTools: iterates the capability bundles in order; a bundle that
is a single Tool contributes itself. For any other bundle the source calls
Tools on the shadowed variable of the failed type assertion — the
zero-valued Tool, whose Tools method returns the one-element list of
itself — so the bundle contributes one zero Tool and its own tools are
discarded (agent.go, the else branch of the type assertion in
processTools). -/
def Agent.processTools (a : Agent) : List Tool :=
  if a.tools.length = 0 then []
  else
    a.tools.foldl (fun acc tk =>
      match tk with
      | ToolKit.single t => acc ++ [t]
      | ToolKit.kit _ => acc ++ [zeroTool]) []

/-- GetAllTools: returns the cached flattened tool list if the cache is
nonempty, otherwise computes it with processTools and stores it. Returns
the (possibly) updated agent together with the list. -/
def Agent.getAllTools (a : Agent) : Agent × List Tool :=
  if 0 < a.toolsCache.length then (a, a.toolsCache)
  else ({ a with toolsCache := a.processTools }, a.processTools)

/-- getSystemMessage: composes the system message from the override text or
from the description / goal / role blocks, appending the markdown
directive block when enabled. -/
def Agent.getSystemMessage (a : Agent) : Message :=
  let base :=
    if a.systemMessage ≠ "" then a.systemMessage
    else
      (if a.description ≠ "" then a.description ++ "\n\n" else "")
      ++ (if a.goal ≠ "" then "<your_goal>\n" ++ a.goal ++ "\n</your_goal>\n\n" else "")
      ++ (if a.role ≠ "" then "<your_role>\n" ++ a.role ++ "\n</your_role>\n\n" else "")
  let content :=
    if a.markdown then
      base ++ "<additional_information>"
        ++ "\n- Use markdown to format your answers."
        ++ "\n</additional_information>\n\n"
    else base
  { role := "system", content := content }

/-- Init: a no-op when already initialized; otherwise pushes the flattened
tools to the model (populating the tool cache via GetAllTools when any
bundles are configured), inserts the system message when the history is
empty and the composed content is nonempty, and marks the agent
initialized. The nil-model panic and the external model initialization are
outside this embedding. -/
def Agent.init (a : Agent) : Agent :=
  if a.isInit then a
  else
    let a1 := if a.tools.length = 0 then a else (Agent.getAllTools a).1
    let a2 :=
      if a1.messages.length = 0 then
        let sm := Agent.getSystemMessage a1
        if sm.content ≠ "" then { a1 with messages := a1.messages ++ [sm] }
        else a1
      else a1
    { a2 with isInit := true }

/-- AddMessage: appends one message with the given role and content, the
media split into its image and audio attachments. -/
def Agent.addMessage (a : Agent) (role content : String)
    (media : List Media) : Agent :=
  let images := media.filterMap (fun m =>
    match m with | Media.image i => some i | _ => none)
  let audios := media.filterMap (fun m =>
    match m with | Media.audio au => some au | _ => none)
  { a with messages := a.messages ++
      [{ role := role, content := content, images := images, audios := audios }] }

/-- findTool: linear scan of the flattened tool list by name; the first
match wins. -/
def findTool (ts : List Tool) (name : String) : Option Tool :=
  ts.find? (fun t => t.name = name)

/-- The tool-result message produced for one ToolCall: a not-found error
text when the registry has no tool of that name, the invocation error text
when the executor fails, and the executor's result payload otherwise; the
message always carries the originating ToolCall's id. -/
def toolResultMessage (ts : List Tool) (tc : ToolCall) : Message :=
  match findTool ts tc.name with
  | none =>
    { role := "tool", content := "Error: tool " ++ tc.name ++ " not found",
      toolCallId := tc.id }
  | some t =>
    match t.execute tc.arguments with
    | Except.error e =>
      { role := "tool", content := "Error: " ++ e, toolCallId := tc.id }
    | Except.ok r => { role := "tool", content := r, toolCallId := tc.id }

/-- The per-turn tool dispatch loop shared by Run and RunStream: tool calls
are processed sequentially in the order given; each iteration resolves the
tool via GetAllTools (with its caching side effect) and appends one
tool-result message. -/
def dispatchLoop : Agent → List ToolCall → Agent
  | a, [] => a
  | a, tc :: rest =>
    let p := Agent.getAllTools a
    dispatchLoop
      { p.1 with messages := p.1.messages ++ [toolResultMessage p.2 tc] } rest

/-- One blocking model invocation (Model.ChatCompletion): a response or an
invocation failure. -/
inductive ModelReply where
  | ok (resp : ModelResponse)
  | fail (e : String)

/-- The outcome of a blocking Run: the final ModelResponse, a propagated
error, or fuel exhaustion (the Go loop is unbounded; diverge marks runs
the fuel bound cannot settle and is never a Go behavior). -/
inductive RunOutcome where
  | ok (resp : ModelResponse)
  | err (e : String)
  | diverge
deriving DecidableEq

/-- The blocking turn loop of Run: invoke the model on the full history; a
tool_call event appends the assistant message with its ToolCalls, runs the
dispatch loop and repeats; a complete event appends the assistant message
(text only) and returns the response; any other event fails with the
unexpected-event error; a model failure is propagated. -/
def runLoop (model : List Message → ModelReply) :
    Nat → Agent → Agent × RunOutcome
  | 0, a => (a, RunOutcome.diverge)
  | Nat.succ fuel, a =>
    match model a.messages with
    | ModelReply.fail e => (a, RunOutcome.err e)
    | ModelReply.ok response =>
      let assistantMessage : Message :=
        { role := "assistant", content := response.data }
      if response.event = "tool_call" then
        let a1 := { a with messages := a.messages ++
          [{ assistantMessage with toolCalls := response.toolCalls }] }
        runLoop model fuel (dispatchLoop a1 response.toolCalls)
      else if response.event = "complete" then
        ({ a with messages := a.messages ++ [assistantMessage] },
         RunOutcome.ok response)
      else
        (a, RunOutcome.err ("unexpected event type: " ++ response.event))

/-- Run: initialize, append the user message, then run the blocking loop.
The empty-history guard of the source is kept although it is unreachable
after the user message is appended. -/
def Agent.run (a : Agent) (model : List Message → ModelReply) (fuel : Nat)
    (userMessage : String) (media : List Media) : Agent × RunOutcome :=
  let a1 := Agent.init a
  let a2 := Agent.addMessage a1 "user" userMessage media
  if a2.messages.length = 0 then
    (a2, RunOutcome.err "no messages available for chat completion")
  else runLoop model fuel a2

/-! ## Streaming aggregator (RunStream in src/agent/agent.go) -/

/-- One streaming model invocation (Model.ChatCompletionStream): the full
sequence of events the stream delivers, or a failure to start. -/
inductive StreamReply where
  | ok (events : List ModelResponse)
  | fail (e : String)

/-- The inner event-consumption loop of RunStream, with the accumulated
full text, the captured ToolCall list and the forwarded events as
accumulators: chunk events extend the text and are forwarded; a tool_call
event overwrites the captured list and, when it carries text, extends the
text and forwards that text as a chunk event; an end event stops
consumption; every other event is skipped silently. -/
def consumeGo : List ModelResponse → String → List ToolCall →
    List ModelResponse → String × List ToolCall × List ModelResponse
  | [], full, tcs, fwd => (full, tcs, fwd)
  | e :: rest, full, tcs, fwd =>
    if e.event = "chunk" then
      consumeGo rest (full ++ e.data) tcs (fwd ++ [e])
    else if e.event = "tool_call" then
      if e.data ≠ "" then
        consumeGo rest (full ++ e.data) e.toolCalls
          (fwd ++ [{ event := "chunk", data := e.data }])
      else consumeGo rest full e.toolCalls fwd
    else if e.event = "end" then (full, tcs, fwd)
    else consumeGo rest full tcs fwd

/-- consumeStream: the inner loop started on a fresh text buffer, captured
list and forwarded-event trace. -/
def consumeStream (events : List ModelResponse) :
    String × List ToolCall × List ModelResponse :=
  consumeGo events "" [] []

/-- The handling after the inner loop of one streaming turn: with captured
tool calls, append the assistant message carrying them, run the dispatch
loop and signal the outer loop to repeat; without, append the plain
assistant message, forward the end event and stop. Returns the updated
agent, the events forwarded to the caller, and whether the outer loop
continues. -/
def streamTurn (a : Agent) (events : List ModelResponse) :
    Agent × List ModelResponse × Bool :=
  let c := consumeStream events
  let assistantMessage : Message := { role := "assistant", content := c.1 }
  if 0 < c.2.1.length then
    let a1 := { a with messages := a.messages ++
      [{ assistantMessage with toolCalls := c.2.1 }] }
    (dispatchLoop a1 c.2.1, c.2.2, true)
  else
    ({ a with messages := a.messages ++ [assistantMessage] },
     c.2.2 ++ [{ event := "end" }], false)

/-- How a streaming run settles: the outer loop ended normally, a stream
failed to start (the error event is forwarded and the task returns), the
unreachable empty-history guard fired, or the fuel bound was reached. -/
inductive StreamOutcome where
  | ended
  | errored
  | failedStart
  | diverge
deriving DecidableEq

/-- The outer loop of the streaming background task: start a stream on the
full history — a failure forwards one error event and stops — consume it,
run the streaming turn and repeat while it signals continuation. Returns
the final agent, the full forwarded-event trace and how the run settled. -/
def runStreamLoop (model : List Message → StreamReply) :
    Nat → Agent → Agent × List ModelResponse × StreamOutcome
  | 0, a => (a, [], StreamOutcome.diverge)
  | Nat.succ fuel, a =>
    match model a.messages with
    | StreamReply.fail e =>
      (a, [{ event := "error", data := e }], StreamOutcome.errored)
    | StreamReply.ok events =>
      let st := streamTurn a events
      if st.2.2 then
        let rec2 := runStreamLoop model fuel st.1
        (rec2.1, st.2.1 ++ rec2.2.1, rec2.2.2)
      else (st.1, st.2.1, StreamOutcome.ended)

/-- RunStream: initialize, append the user message, then run the streaming
outer loop. The empty-history guard of the source is kept although it is
unreachable after the user message is appended. -/
def Agent.runStream (a : Agent) (model : List Message → StreamReply)
    (fuel : Nat) (userMessage : String) (media : List Media) :
    Agent × List ModelResponse × StreamOutcome :=
  let a1 := Agent.init a
  let a2 := Agent.addMessage a1 "user" userMessage media
  if a2.messages.length = 0 then (a2, [], StreamOutcome.failedStart)
  else runStreamLoop model fuel a2

/-! ## Auxiliary definitions used by the verification -/

/-- The tool list one capability bundle actually contributes in
processTools: a single Tool contributes itself; any other bundle
contributes one zero-valued Tool, its own tools being discarded by the
shadowed type-assertion variable (see Agent.processTools). -/
def kitTools : ToolKit → List Tool
  | ToolKit.single t => [t]
  | ToolKit.kit _ => [zeroTool]

/-- The captured-ToolCall component of the inner streaming loop in
isolation: an end event freezes the accumulator, a tool_call event
overwrites it, every other event leaves it unchanged. -/
def capFold : List ModelResponse → List ToolCall → List ToolCall
  | [], tcs => tcs
  | e :: rest, tcs =>
    if e.event = "end" then tcs
    else if e.event = "tool_call" then capFold rest e.toolCalls
    else capFold rest tcs

/-! ## Concrete sample values for witnesses and counterexamples -/

/-- A fresh agent with no configuration. -/
def agent0 : Agent := {}

/-- A model whose invocation always fails. -/
def modelFail : List Message → ModelReply := fun _ => ModelReply.fail "boom"

/-- A model that always completes immediately with the text hi. -/
def modelComplete : List Message → ModelReply := fun _ =>
  ModelReply.ok { event := "complete", data := "hi" }

/-- A model that always answers with an event kind the blocking loop does
not recognize. -/
def modelBanana : List Message → ModelReply := fun _ =>
  ModelReply.ok { event := "banana" }

/-- A sample tool call. -/
def toolCallCalc : ToolCall := { id := "1", name := "calc", arguments := "" }

/-- A model that requests one tool call on the first invocation and
completes with the text 4 afterwards. -/
def modelToolThenComplete : List Message → ModelReply := fun msgs =>
  if msgs.length ≤ 1 then
    ModelReply.ok { event := "tool_call", toolCalls := [toolCallCalc] }
  else ModelReply.ok { event := "complete", data := "4" }

/-- The agent state after running agent0 against modelComplete. -/
def agentAfterComplete : Agent :=
  { messages := [{ role := "user", content := "q" },
                 { role := "assistant", content := "hi" }],
    isInit := true }

/-- A streaming model whose stream consists of a single error event. -/
def streamModelErrorEvent : List Message → StreamReply := fun _ =>
  StreamReply.ok [{ event := "error", data := "boom" }]

/-- Two sample tool calls for the streaming capture property. -/
def toolCallA : ToolCall := { id := "a", name := "A", arguments := "" }

/-- Second sample tool call for the streaming capture property. -/
def toolCallB : ToolCall := { id := "b", name := "B", arguments := "" }

/-- A stream delivering two tool_call events before the end event. -/
def eventsTwoToolCalls : List ModelResponse :=
  [{ event := "tool_call", toolCalls := [toolCallA] },
   { event := "tool_call", toolCalls := [toolCallB] },
   { event := "end" }]

/-- A tool named x. -/
def toolX : Tool := { name := "x", execute := fun _ => Except.ok "" }

/-- A second, distinct tool also named x. -/
def toolX2 : Tool :=
  { name := "x", description := "two", execute := fun _ => Except.ok "" }

/-- An agent configured with two single-tool bundles sharing one name. -/
def dupAgent : Agent := { tools := [ToolKit.single toolX, ToolKit.single toolX2] }

/-- An agent with only a description configured. -/
def helpfulAgent : Agent := { description := "You are helpful" }

/-- A tool whose executor always fails. -/
def toolBroken : Tool :=
  { name := "calc", execute := fun _ => Except.error "exploded" }

/-! ## Helper lemmas -/

/-- GetAllTools only writes the tool cache: the returned agent is the input
agent with the returned list stored as its cache. -/
theorem getAllTools_fst (a : Agent) :
    (Agent.getAllTools a).1 = { a with toolsCache := (Agent.getAllTools a).2 } := by
  unfold Agent.getAllTools
  by_cases h : 0 < a.toolsCache.length <;> simp [h]

/-- GetAllTools preserves the message history. -/
theorem getAllTools_messages (a : Agent) :
    ((Agent.getAllTools a).1).messages = a.messages := by
  rw [getAllTools_fst]

/-- GetAllTools is idempotent: calling it on its own result returns the
same agent and the same list. -/
theorem getAllTools_idem (a : Agent) :
    Agent.getAllTools (Agent.getAllTools a).1 = Agent.getAllTools a := by
  unfold Agent.getAllTools
  by_cases h : 0 < a.toolsCache.length
  · simp [h]
  · simp [h]
    by_cases h2 : 0 < a.processTools.length
    · simp [Agent.processTools] at h2 ⊢
    · simp [Agent.processTools] at h2 ⊢

/-- Updating the message history does not affect what GetAllTools computes
or caches. -/
theorem getAllTools_set_messages (a : Agent) (m : List Message) :
    Agent.getAllTools { a with messages := m }
      = ({ (Agent.getAllTools a).1 with messages := m },
         (Agent.getAllTools a).2) := by
  unfold Agent.getAllTools
  by_cases h : 0 < a.toolsCache.length <;> simp [h, Agent.processTools]

/-- AddMessage appends exactly one message with the given role and content
and the media split into images and audio. -/
theorem addMessage_messages (a : Agent) (r c : String) (media : List Media) :
    (Agent.addMessage a r c media).messages
      = a.messages ++
        [{ role := r, content := c,
           images := media.filterMap (fun m =>
             match m with | Media.image i => some i | _ => none),
           audios := media.filterMap (fun m =>
             match m with | Media.audio au => some au | _ => none) }] := rfl

/-- The dispatch loop appends, in order, exactly one tool-result message
per ToolCall, computed against the flattened tool list. -/
theorem dispatchLoop_messages (tcs : List ToolCall) (a : Agent) :
    (dispatchLoop a tcs).messages
      = a.messages ++ tcs.map (toolResultMessage (Agent.getAllTools a).2) := by
  induction tcs generalizing a with
  | nil => simp [dispatchLoop]
  | cons tc rest ih =>
    rw [dispatchLoop]
    rw [ih]
    rw [getAllTools_set_messages ((Agent.getAllTools a).1)]
    rw [getAllTools_idem]
    simp [getAllTools_messages]

/-- The dispatch loop never drops or aborts: it appends one message per
ToolCall. -/
theorem dispatchLoop_length (a : Agent) (tcs : List ToolCall) :
    (dispatchLoop a tcs).messages.length
      = a.messages.length + tcs.length := by
  rw [dispatchLoop_messages]
  simp

/-- On a tool_call response, one blocking-loop step appends the assistant
message carrying the returned ToolCalls, runs the dispatch loop on them,
and continues the loop. -/
theorem runLoop_toolCall_step (model : List Message → ModelReply)
    (fuel : Nat) (a : Agent) (resp : ModelResponse)
    (hm : model a.messages = ModelReply.ok resp)
    (he : resp.event = "tool_call") :
    runLoop model (fuel + 1) a
      = runLoop model fuel (dispatchLoop
          { a with messages := a.messages ++
              [{ role := "assistant", content := resp.data,
                 toolCalls := resp.toolCalls }] } resp.toolCalls) := by
  rw [runLoop]
  rw [hm]
  simp [he]

/-- On a response whose event is neither tool_call nor complete, the
blocking loop fails with the unexpected-event error and the history is
left as it was. -/
theorem runLoop_unexpected (model : List Message → ModelReply)
    (fuel : Nat) (a : Agent) (resp : ModelResponse)
    (hm : model a.messages = ModelReply.ok resp)
    (h1 : resp.event ≠ "tool_call") (h2 : resp.event ≠ "complete") :
    runLoop model (fuel + 1) a
      = (a, RunOutcome.err ("unexpected event type: " ++ resp.event)) := by
  rw [runLoop]
  rw [hm]
  simp [h1, h2]

/-- Whenever the blocking loop returns a final response, that response's
event is complete, the final history ends with an assistant message whose
content is the response text and whose ToolCalls list is empty (the
default), and that response is exactly what the model returned for the
preceding history. -/
theorem runLoop_ok (model : List Message → ModelReply) :
    ∀ (fuel : Nat) (a a2 : Agent) (resp : ModelResponse),
      runLoop model fuel a = (a2, RunOutcome.ok resp) →
      resp.event = "complete" ∧ ∃ pre,
        model pre = ModelReply.ok resp ∧
        a2.messages = pre ++ [{ role := "assistant", content := resp.data }] := by
  intro fuel
  induction fuel with
  | zero =>
    intro a a2 resp h
    simp [runLoop] at h
  | succ n ih =>
    intro a a2 resp h
    rw [runLoop] at h
    cases hm : model a.messages with
    | fail e => rw [hm] at h; simp at h
    | ok response =>
      rw [hm] at h
      by_cases he : response.event = "tool_call"
      · simp only [he, if_pos rfl] at h
        simp at h
        exact ih _ _ _ h
      · by_cases hc : response.event = "complete"
        · simp [he, hc] at h
          obtain ⟨h1, h2⟩ := h
          subst h2
          refine ⟨hc, a.messages, hm, ?_⟩
          rw [← h1]
        · simp [he, hc] at h

/-- After Init the agent is marked initialized. -/
theorem init_isInit (a : Agent) : (Agent.init a).isInit = true := by
  by_cases h : a.isInit = true <;> simp [Agent.init, h]

/-- Init is a no-op on an initialized agent. -/
theorem init_of_isInit (a : Agent) (h : a.isInit = true) : Agent.init a = a := by
  simp [Agent.init, h]

/-- Init is idempotent: a second call returns the agent unchanged, message
history included. -/
theorem init_idem (a : Agent) : Agent.init (Agent.init a) = Agent.init a :=
  init_of_isInit _ (init_isInit a)

/-- The system message's role is system. -/
theorem getSystemMessage_role (a : Agent) :
    (Agent.getSystemMessage a).role = "system" := rfl

/-- The system message only depends on the configuration fields, not on
the tool cache. -/
theorem getSystemMessage_cache (a : Agent) (x : List Tool) :
    Agent.getSystemMessage { a with toolsCache := x }
      = Agent.getSystemMessage a := rfl

/-- On a fresh agent with an empty history whose composed system message is
nonempty, Init makes the history exactly that one system message. -/
theorem init_messages_fresh (a : Agent) (h0 : a.isInit = false)
    (h1 : a.messages = [])
    (h2 : (Agent.getSystemMessage a).content ≠ "") :
    (Agent.init a).messages = [Agent.getSystemMessage a] := by
  have hb : ¬ a.isInit = true := by simp [h0]
  rw [Agent.init, if_neg hb]
  by_cases ht : a.tools.length = 0
  · simp [ht, h1, h2]
  · rw [if_neg ht]
    rw [getAllTools_fst]
    simp only [getSystemMessage_cache]
    simp [h1, h2]

/-- processTools computes the concatenation, in bundle order, of each
bundle's actual contribution: the tool itself for a single-Tool bundle and
one zero Tool for any other bundle. -/
theorem processTools_flatten (a : Agent) :
    Agent.processTools a = (a.tools.map kitTools).flatten := by
  unfold Agent.processTools
  by_cases h : a.tools.length = 0
  · rw [List.length_eq_zero] at h
    simp [h]
  · rw [if_neg h]
    suffices hgen : ∀ (l : List ToolKit) (acc : List Tool),
        l.foldl (fun acc tk =>
          match tk with
          | ToolKit.single t => acc ++ [t]
          | ToolKit.kit _ => acc ++ [zeroTool]) acc
          = acc ++ (l.map kitTools).flatten by
      simpa using hgen a.tools []
    intro l
    induction l with
    | nil => intro acc; simp
    | cons tk rest ih =>
      intro acc
      cases tk <;> simp [kitTools, ih]

/-- On a fresh registry (empty cache), GetAllTools returns the
concatenation, in bundle order, of each bundle's actual contribution. -/
theorem getAllTools_fresh (a : Agent) (h : a.toolsCache = []) :
    (Agent.getAllTools a).2 = (a.tools.map kitTools).flatten := by
  unfold Agent.getAllTools
  simp [h, processTools_flatten]

/-- An event that is neither chunk nor tool_call nor end is skipped
silently by the inner streaming loop: it changes no accumulator and is not
forwarded. -/
theorem consumeGo_skip (e : ModelResponse) (rest : List ModelResponse)
    (full : String) (tcs : List ToolCall) (fwd : List ModelResponse)
    (h1 : e.event ≠ "chunk") (h2 : e.event ≠ "tool_call")
    (h3 : e.event ≠ "end") :
    consumeGo (e :: rest) full tcs fwd = consumeGo rest full tcs fwd := by
  rw [consumeGo]
  simp [h1, h2, h3]

/-- The captured-ToolCall component of the inner streaming loop equals the
isolated capture fold, independently of the text and forwarding
accumulators. -/
theorem consumeGo_captured (events : List ModelResponse) :
    ∀ (full : String) (tcs : List ToolCall) (fwd : List ModelResponse),
      (consumeGo events full tcs fwd).2.1 = capFold events tcs := by
  induction events with
  | nil => intro full tcs fwd; rfl
  | cons e rest ih =>
    intro full tcs fwd
    rw [consumeGo, capFold]
    by_cases h1 : e.event = "chunk"
    · simp [h1, ih]
    · by_cases h2 : e.event = "tool_call"
      · by_cases h3 : e.data = ""
        · simp [h1, h2, h3, ih]
        · simp [h1, h2, h3, ih]
      · by_cases h4 : e.event = "end"
        · simp [h1, h2, h4]
        · simp [h1, h2, h4, ih]

/-- When no tool_call event occurs before the end of the stream, the
capture fold keeps the accumulator. -/
theorem capFold_no_toolCall (ys : List ModelResponse) :
    ∀ (acc : List ToolCall),
      (∀ y ∈ ys.takeWhile (fun y => y.event != "end"), y.event ≠ "tool_call") →
      capFold ys acc = acc := by
  induction ys with
  | nil => intro acc _; rfl
  | cons y rest ih =>
    intro acc hy
    rw [capFold]
    by_cases hEnd : y.event = "end"
    · simp [hEnd]
    · have hb : (y.event != "end") = true := by simp [hEnd]
      have hcons : (y :: rest).takeWhile (fun y => y.event != "end")
          = y :: rest.takeWhile (fun y => y.event != "end") :=
        List.takeWhile_cons_of_pos hb
      have hmem : y ∈ (y :: rest).takeWhile (fun y => y.event != "end") := by
        rw [hcons]
        exact List.mem_cons_self y _
      have hyn : y.event ≠ "tool_call" := hy y hmem
      have htail : ∀ z ∈ rest.takeWhile (fun y => y.event != "end"),
          z.event ≠ "tool_call" := by
        intro z hz
        apply hy
        rw [hcons]
        exact List.mem_cons_of_mem y hz
      simp [hEnd, hyn, ih acc htail]

/-- When a tool_call event e is followed, before the end of the stream,
only by non-tool_call events, the capture fold of any stream ending in
that pattern yields the ToolCall list of e, whatever came before and
whatever the accumulator held. -/
theorem capFold_last (e : ModelResponse) (ys : List ModelResponse)
    (he : e.event = "tool_call")
    (hys : ∀ y ∈ ys.takeWhile (fun y => y.event != "end"),
      y.event ≠ "tool_call") :
    ∀ (xs : List ModelResponse), (∀ x ∈ xs, x.event ≠ "end") →
      ∀ (acc : List ToolCall), capFold (xs ++ e :: ys) acc = e.toolCalls := by
  intro xs
  induction xs with
  | nil =>
    intro _ acc
    have hee : e.event ≠ "end" := by rw [he]; decide
    rw [List.nil_append, capFold]
    simp [hee, he, capFold_no_toolCall ys e.toolCalls hys]
  | cons x rest ih =>
    intro hx acc
    have hxe : x.event ≠ "end" := hx x (List.mem_cons_self x rest)
    have hrest : ∀ z ∈ rest, z.event ≠ "end" := fun z hz =>
      hx z (List.mem_cons_of_mem x hz)
    rw [List.cons_append, capFold]
    by_cases htc : x.event = "tool_call"
    · simp only [if_neg hxe, if_pos htc]
      exact ih hrest x.toolCalls
    · simp only [if_neg hxe, if_neg htc]
      exact ih hrest acc

/-- When the inner streaming loop captured tool calls, the streaming turn
appends the assistant message carrying exactly the captured list, runs the
dispatch loop on exactly that list, and signals the outer loop to
continue. -/
theorem streamTurn_toolCall (a : Agent) (events : List ModelResponse)
    (h : (consumeStream events).2.1 ≠ []) :
    streamTurn a events
      = (dispatchLoop
          { a with messages := a.messages ++
              [{ role := "assistant", content := (consumeStream events).1,
                 toolCalls := (consumeStream events).2.1 }] }
          (consumeStream events).2.1,
         (consumeStream events).2.2, true) := by
  have hlen : 0 < (consumeStream events).2.1.length := List.length_pos.mpr h
  rw [streamTurn]
  simp [hlen]

/-- Run is the blocking loop started on the initialized agent with the
user message appended (the empty-history guard never fires). -/
theorem run_eq_runLoop (a : Agent) (model : List Message → ModelReply)
    (fuel : Nat) (u : String) (media : List Media) :
    Agent.run a model fuel u media
      = runLoop model fuel (Agent.addMessage (Agent.init a) "user" u media) := by
  have h : ¬ (Agent.addMessage (Agent.init a) "user" u media).messages.length = 0 := by
    rw [addMessage_messages]
    simp
  unfold Agent.run
  simp [h]

/-- RunStream is the streaming outer loop started on the initialized agent
with the user message appended (the empty-history guard never fires). -/
theorem runStream_eq_loop (a : Agent) (model : List Message → StreamReply)
    (fuel : Nat) (u : String) (media : List Media) :
    Agent.runStream a model fuel u media
      = runStreamLoop model fuel
          (Agent.addMessage (Agent.init a) "user" u media) := by
  have h : ¬ (Agent.addMessage (Agent.init a) "user" u media).messages.length = 0 := by
    rw [addMessage_messages]
    simp
  unfold Agent.runStream
  simp [h]

/-! ## Claim C1 -/

/-- Claim C1 counterexample: a blocking run in which the first model turn
requests one tool call and the second completes with text 4. The run ends
with a complete event, yet the final assistant message appended to history
carries an empty ToolCalls list (third conjunct) although a ToolCall was
accumulated earlier in the run (second conjunct: the per-message ToolCall
lists are empty, the earlier assistant turn's singleton, empty, empty),
and the returned result is the model's final response, which carries no
ToolCalls either (first conjunct). This refutes the claim that the final
message and result carry the ToolCalls accumulated across the whole
run. -/
theorem C1_counterexample :
    (Agent.run agent0 modelToolThenComplete 3 "q" []).2
      = RunOutcome.ok { event := "complete", data := "4" }
    ∧ (Agent.run agent0 modelToolThenComplete 3 "q" []).1.messages.map
        Message.toolCalls = [[], [toolCallCalc], [], []]
    ∧ ((Agent.run agent0 modelToolThenComplete 3 "q" []).1.messages.getLast?).map
        Message.toolCalls = some [] :=
  ⟨rfl, rfl, rfl⟩

/-- Claim C1 (amended): for every blocking Run that ends with an ok
outcome, the final event is complete, the result returned to the caller is
the model's final response unchanged, and the assistant message appended
to history carries the final text with an empty ToolCalls list — ToolCalls
from earlier turns of the run are not accumulated onto it or onto the
result. -/
theorem C1_amended_run_complete (a : Agent)
    (model : List Message → ModelReply) (fuel : Nat) (u : String)
    (media : List Media) (a2 : Agent) (resp : ModelResponse)
    (h : Agent.run a model fuel u media = (a2, RunOutcome.ok resp)) :
    resp.event = "complete" ∧ ∃ pre,
      model pre = ModelReply.ok resp ∧
      a2.messages = pre ++ [{ role := "assistant", content := resp.data }] := by
  rw [run_eq_runLoop] at h
  exact runLoop_ok model fuel _ a2 resp h

/-- Witness for C1_amended_run_complete at a concrete one-turn run. -/
theorem C1_witness :
    ({ event := "complete", data := "hi" } : ModelResponse).event = "complete"
    ∧ ∃ pre, modelComplete pre
          = ModelReply.ok { event := "complete", data := "hi" }
        ∧ agentAfterComplete.messages
            = pre ++ [{ role := "assistant", content := "hi" }] :=
  C1_amended_run_complete agent0 modelComplete 1 "q" [] agentAfterComplete
    { event := "complete", data := "hi" } rfl

/-! ## Claim C2 -/

/-- Claim C2 counterexample: a streaming run whose stream delivers a single
error event — an event that is neither tool_call nor complete nor end. The
run does not fail: the unexpected event is silently ignored, the outer
loop ends normally forwarding only an end event, and a final (empty)
assistant message is produced. -/
theorem C2_counterexample :
    (Agent.runStream agent0 streamModelErrorEvent 1 "q" []).2.2
        = StreamOutcome.ended
    ∧ (Agent.runStream agent0 streamModelErrorEvent 1 "q" []).2.1
        = [{ event := "end" }]
    ∧ (Agent.runStream agent0 streamModelErrorEvent 1 "q" []).1.messages
        = [{ role := "user", content := "q" },
           { role := "assistant", content := "" }] :=
  ⟨rfl, rfl, rfl⟩

/-- Claim C2 (amended): on the blocking Run path a response event other
than tool_call or complete fails the run fatally with the
unexpected-event-type error; on the streaming RunStream path a stream
event other than chunk, tool_call or end is silently skipped — it is
neither fatal nor forwarded nor recorded. -/
theorem C2_amended_unexpected_events :
    (∀ (model : List Message → ModelReply) (fuel : Nat) (a : Agent)
        (resp : ModelResponse),
      model a.messages = ModelReply.ok resp →
      resp.event ≠ "tool_call" → resp.event ≠ "complete" →
      runLoop model (fuel + 1) a
        = (a, RunOutcome.err ("unexpected event type: " ++ resp.event)))
    ∧ (∀ (e : ModelResponse) (rest : List ModelResponse) (full : String)
        (tcs : List ToolCall) (fwd : List ModelResponse),
      e.event ≠ "chunk" → e.event ≠ "tool_call" → e.event ≠ "end" →
      consumeGo (e :: rest) full tcs fwd = consumeGo rest full tcs fwd) :=
  ⟨runLoop_unexpected, consumeGo_skip⟩

/-- Witness for C2_amended_unexpected_events: a banana event fails the
blocking loop; an in-stream error event is skipped by the inner streaming
loop. -/
theorem C2_witness :
    runLoop modelBanana (0 + 1) agent0
      = (agent0, RunOutcome.err ("unexpected event type: " ++ "banana"))
    ∧ consumeGo [{ event := "error", data := "boom" }] "" [] []
      = consumeGo [] "" [] [] :=
  ⟨C2_amended_unexpected_events.1 modelBanana 0 agent0 { event := "banana" }
      rfl (by decide) (by decide),
   C2_amended_unexpected_events.2 { event := "error", data := "boom" } [] ""
      [] [] (by decide) (by decide) (by decide)⟩

/-! ## Claim C3 -/

/-- Claim C3 counterexample: a blocking run whose (first) model invocation
fails. The failure is propagated, but the history after the failed Run
call is the user message — not the empty history from before the call, as
the claim requires. -/
theorem C3_counterexample :
    (Agent.run agent0 modelFail 1 "hi" []).2 = RunOutcome.err "boom"
    ∧ (Agent.run agent0 modelFail 1 "hi" []).1.messages
        = [{ role := "user", content := "hi" }]
    ∧ ¬ (Agent.run agent0 modelFail 1 "hi" []).1.messages = agent0.messages :=
  ⟨rfl, rfl, by decide⟩

/-- Claim C3 (amended): if the first model invocation of a blocking Run
fails, the failure is propagated to the caller and no assistant or tool
messages are appended: the resulting history is exactly the pre-Run
history (after initialization) plus the user message appended at the start
of the call. -/
theorem C3_amended_model_failure (a : Agent)
    (model : List Message → ModelReply) (fuel : Nat) (u : String)
    (media : List Media) (e : String)
    (hm : model ((Agent.addMessage (Agent.init a) "user" u media).messages)
        = ModelReply.fail e) :
    Agent.run a model (fuel + 1) u media
      = (Agent.addMessage (Agent.init a) "user" u media, RunOutcome.err e) := by
  rw [run_eq_runLoop, runLoop, hm]

/-- Witness for C3_amended_model_failure at a concrete failing run. -/
theorem C3_witness :
    Agent.run agent0 modelFail (0 + 1) "hi" []
      = (Agent.addMessage (Agent.init agent0) "user" "hi" [],
         RunOutcome.err "boom") :=
  C3_amended_model_failure agent0 modelFail 0 "hi" [] "boom" rfl

/-- If any declared parameter's type has no schema primitive, the schema
assembly rejects the tool with a derivation error. -/
theorem buildProperties_unsupported (params : List (String × GoType))
    (descs : List (String × String)) (name : String) (t : GoType)
    (hmem : (name, t) ∈ params) (hnone : goTypeToJSONSchemaType t = none) :
    ∃ msg, buildProperties params descs = Except.error msg := by
  induction params with
  | nil => cases hmem
  | cons p rest ih =>
    obtain ⟨n0, t0⟩ := p
    cases hg : goTypeToJSONSchemaType t0 with
    | none => exact ⟨_, by rw [buildProperties, hg]⟩
    | some st =>
      have hmem2 : (name, t) ∈ rest := by
        rcases List.mem_cons.mp hmem with h | h
        · cases h
          rw [hnone] at hg
          cases hg
        · exact h
      obtain ⟨msg, hmsg⟩ := ih hmem2
      refine ⟨msg, ?_⟩
      rw [buildProperties, hg, hmsg]

/-- A decoded JSON array converts under a slice type exactly when each
element converts under the element type, elementwise and in order. -/
theorem convertJSONList_ok_iff (e : GoType) :
    ∀ (elems : List JSONValue) (gvs : List GoValue),
      convertJSONList elems e = Except.ok gvs ↔
      List.Forall₂ (fun v gv => convertJSONValueToGoType v e = Except.ok gv)
        elems gvs := by
  intro elems
  induction elems with
  | nil =>
    intro gvs
    rw [convertJSONList]
    constructor
    · intro h
      cases h
      exact List.Forall₂.nil
    · intro h
      cases h
      rfl
  | cons v rest ih =>
    intro gvs
    rw [convertJSONList]
    cases hv : convertJSONValueToGoType v e with
    | error err =>
      simp only [List.forall₂_cons_left_iff]
      constructor
      · intro h
        cases h
      · rintro ⟨b, l2, hb, _, _⟩
        rw [hv] at hb
        cases hb
    | ok gv =>
      cases hl : convertJSONList rest e with
      | error err =>
        simp only [List.forall₂_cons_left_iff]
        constructor
        · intro h
          cases h
        · rintro ⟨b, l2, _, hrest, _⟩
          rw [(ih l2).mpr hrest] at hl
          cases hl
      | ok l =>
        simp only [List.forall₂_cons_left_iff]
        constructor
        · intro h
          cases h
          exact ⟨gv, l, hv, (ih l).mp hl, rfl⟩
        · rintro ⟨b, l2, hb, hrest, hgvs⟩
          rw [hv] at hb
          cases hb
          rw [(ih l2).mpr hrest] at hl
          cases hl
          exact hgvs ▸ rfl

/-- A decoded JSON object converts under a string-keyed map type exactly
when each entry's value converts under the element type, entrywise with
keys preserved. -/
theorem convertJSONObj_ok_iff (e : GoType) :
    ∀ (entries : List (String × JSONValue)) (out : List (String × GoValue)),
      convertJSONObj entries e = Except.ok out ↔
      List.Forall₂ (fun p q => p.1 = q.1 ∧
        convertJSONValueToGoType p.2 e = Except.ok q.2) entries out := by
  intro entries
  induction entries with
  | nil =>
    intro out
    rw [convertJSONObj]
    constructor
    · intro h
      cases h
      exact List.Forall₂.nil
    · intro h
      cases h
      rfl
  | cons p rest ih =>
    intro out
    obtain ⟨k, v⟩ := p
    rw [convertJSONObj]
    cases hv : convertJSONValueToGoType v e with
    | error err =>
      simp only [List.forall₂_cons_left_iff]
      constructor
      · intro h
        cases h
      · rintro ⟨b, l2, hb, _, _⟩
        obtain ⟨_, hb2⟩ := hb
        rw [hv] at hb2
        cases hb2
    | ok gv =>
      cases hl : convertJSONObj rest e with
      | error err =>
        simp only [List.forall₂_cons_left_iff]
        constructor
        · intro h
          cases h
        · rintro ⟨b, l2, _, hrest, _⟩
          rw [(ih l2).mpr hrest] at hl
          cases hl
      | ok l =>
        simp only [List.forall₂_cons_left_iff]
        constructor
        · intro h
          cases h
          exact ⟨(k, gv), l, ⟨rfl, hv⟩, (ih l).mp hl, rfl⟩
        · rintro ⟨b, l2, hb, hrest, hout⟩
          obtain ⟨hb1, hb2⟩ := hb
          rw [hv] at hb2
          cases hb2
          rw [(ih l2).mpr hrest] at hl
          cases hl
          subst hout
          obtain ⟨b1, b2⟩ := b
          simp at hb1
          rw [hb1]

/-- An absent required parameter fails the call with the missing-parameter
error naming it. -/
theorem buildArg1_missing_required (req : List String)
    (m : List (String × JSONValue)) (n : String) (t : GoType)
    (habs : lookupArg m n = none) (hreq : n ∈ req) :
    buildArg1 req m n t
      = Except.error ("missing required parameter: " ++ n) := by
  rw [buildArg1, habs]
  simp [hreq]

/-- An absent optional parameter is substituted with its zero value. -/
theorem buildArg1_optional_zero (req : List String)
    (m : List (String × JSONValue)) (n : String)
    (habs : lookupArg m n = none) (hopt : ¬ n ∈ req) (t : GoType) :
    buildArg1 req m n t = zeroValue n t := by
  rw [buildArg1, habs]
  simp [hopt]

/-! ## Claim C4 -/

/-- Claim C4 counterexample: the unsigned integer kind does not map to the
schema primitive integer — it falls to the default branch and is
unsupported, contradicting the claim that unsigned integer kinds map to
integer. -/
theorem C4_counterexample :
    goTypeToJSONSchemaType GoType.uint = none
    ∧ ¬ goTypeToJSONSchemaType GoType.uint = some "integer" := by
  decide

/-- Claim C4 (amended): the schema primitive derived per parameter type is
integer for the signed integer kinds only, number for the floating kinds,
string for text, boolean for booleans, array for slices and object for
maps; the unsigned integer kinds, like every other kind, have no primitive
and any parameter of such a type rejects the tool at registration time
with an unsupported-parameter-type derivation error. -/
theorem C4_amended_schema_primitives :
    (goTypeToJSONSchemaType GoType.int = some "integer"
      ∧ goTypeToJSONSchemaType GoType.int8 = some "integer"
      ∧ goTypeToJSONSchemaType GoType.int16 = some "integer"
      ∧ goTypeToJSONSchemaType GoType.int32 = some "integer"
      ∧ goTypeToJSONSchemaType GoType.int64 = some "integer")
    ∧ (goTypeToJSONSchemaType GoType.float32 = some "number"
      ∧ goTypeToJSONSchemaType GoType.float64 = some "number")
    ∧ goTypeToJSONSchemaType GoType.str = some "string"
    ∧ goTypeToJSONSchemaType GoType.bool = some "boolean"
    ∧ (∀ e, goTypeToJSONSchemaType (GoType.slice e) = some "array")
    ∧ (∀ e, goTypeToJSONSchemaType (GoType.mapStr e) = some "object")
    ∧ (goTypeToJSONSchemaType GoType.uint = none
      ∧ goTypeToJSONSchemaType GoType.uint8 = none
      ∧ goTypeToJSONSchemaType GoType.uint16 = none
      ∧ goTypeToJSONSchemaType GoType.uint32 = none
      ∧ goTypeToJSONSchemaType GoType.uint64 = none)
    ∧ (∀ (params : List (String × GoType)) (descs : List (String × String))
        (name : String) (t : GoType), (name, t) ∈ params →
        goTypeToJSONSchemaType t = none →
        ∃ msg, buildProperties params descs = Except.error msg) :=
  ⟨⟨rfl, rfl, rfl, rfl, rfl⟩, ⟨rfl, rfl⟩, rfl, rfl, fun _ => rfl,
   fun _ => rfl, ⟨rfl, rfl, rfl, rfl, rfl⟩, buildProperties_unsupported⟩

/-- Witness for C4_amended_schema_primitives: a uint parameter rejects the
tool at schema-assembly time. -/
theorem C4_witness :
    ∃ msg, buildProperties [("n", GoType.uint)] [] = Except.error msg :=
  C4_amended_schema_primitives.2.2.2.2.2.2.2 [("n", GoType.uint)] [] "n"
    GoType.uint (by decide) rfl

/-! ## Claim C5 -/

/-- Claim C5 counterexample: int64 is a declared integer type whose schema
primitive is integer, yet a numeric payload value for an int64 parameter
does not convert — the executor fails with an unsupported-type conversion
error, contradicting the claim that numeric payload values convert to the
declared integer type. -/
theorem C5_counterexample :
    goTypeToJSONSchemaType GoType.int64 = some "integer"
    ∧ buildArg1 [] [("a", JSONValue.num 5)] "a" GoType.int64
        = Except.error
            "type conversion failed for a: unsupported type: int64" :=
  ⟨rfl, rfl⟩

/-- Claim C5 (amended): in the derived executor's argument marshaling, an
absent required parameter fails with the missing-parameter error naming
it; an absent optional parameter is substituted with its zero value (empty
string, zero int, zero float, false, or the interface-typed empty
collection); a present numeric payload value converts only when the
declared type is exactly int (by truncation) or float64 — other numeric
widths are unsupported; text and booleans pass through; arrays and objects
convert elementwise and recursively. In particular, with schema a required
int and b optional string, the payload carrying only a equal 5 succeeds
supplying the empty string for b, and the empty payload fails with the
missing-parameter error naming a. -/
theorem C5_amended_argument_marshaling :
    (∀ (req : List String) (m : List (String × JSONValue)) (n : String)
        (t : GoType), lookupArg m n = none → n ∈ req →
      buildArg1 req m n t
        = Except.error ("missing required parameter: " ++ n))
    ∧ (∀ (req : List String) (m : List (String × JSONValue)) (n : String),
        lookupArg m n = none → ¬ n ∈ req →
        buildArg1 req m n GoType.str = Except.ok (GoValue.str "")
        ∧ buildArg1 req m n GoType.int = Except.ok (GoValue.int 0)
        ∧ buildArg1 req m n GoType.float64 = Except.ok (GoValue.float 0)
        ∧ buildArg1 req m n GoType.bool = Except.ok (GoValue.bool false)
        ∧ (∀ e, buildArg1 req m n (GoType.slice e)
            = Except.ok (GoValue.slice GoType.iface []))
        ∧ (∀ e, buildArg1 req m n (GoType.mapStr e)
            = Except.ok (GoValue.mapStr GoType.iface [])))
    ∧ (∀ q : Rat,
        convertJSONValueToGoType (JSONValue.num q) GoType.int
          = Except.ok (GoValue.int (ratTrunc q))
        ∧ convertJSONValueToGoType (JSONValue.num q) GoType.float64
          = Except.ok (GoValue.float q))
    ∧ (∀ s, convertJSONValueToGoType (JSONValue.str s) GoType.str
        = Except.ok (GoValue.str s))
    ∧ (∀ b, convertJSONValueToGoType (JSONValue.bool b) GoType.bool
        = Except.ok (GoValue.bool b))
    ∧ (∀ elems e gvs, convertJSONList elems e = Except.ok gvs ↔
        List.Forall₂
          (fun v gv => convertJSONValueToGoType v e = Except.ok gv)
          elems gvs)
    ∧ (∀ entries e out, convertJSONObj entries e = Except.ok out ↔
        List.Forall₂ (fun p q => p.1 = q.1 ∧
          convertJSONValueToGoType p.2 e = Except.ok q.2) entries out)
    ∧ buildArgs ["a"] [("a", JSONValue.num 5)]
        [("a", GoType.int), ("b", GoType.str)]
        = Except.ok [GoValue.int 5, GoValue.str ""]
    ∧ buildArgs ["a"] [] [("a", GoType.int), ("b", GoType.str)]
        = Except.error ("missing required parameter: a") := by
  refine ⟨buildArg1_missing_required, ?_, fun q => ⟨rfl, rfl⟩, fun s => rfl,
    fun b => rfl, fun elems e gvs => convertJSONList_ok_iff e elems gvs,
    fun entries e out => convertJSONObj_ok_iff e entries out, rfl, rfl⟩
  intro req m n habs hopt
  exact ⟨buildArg1_optional_zero req m n habs hopt GoType.str,
    buildArg1_optional_zero req m n habs hopt GoType.int,
    buildArg1_optional_zero req m n habs hopt GoType.float64,
    buildArg1_optional_zero req m n habs hopt GoType.bool,
    fun e => buildArg1_optional_zero req m n habs hopt (GoType.slice e),
    fun e => buildArg1_optional_zero req m n habs hopt (GoType.mapStr e)⟩

/-- Witness for C5_amended_argument_marshaling: the missing-required and
optional-zero clauses at concrete inputs. -/
theorem C5_witness :
    buildArg1 ["a"] [] "a" GoType.int
      = Except.error ("missing required parameter: " ++ "a")
    ∧ buildArg1 ["a"] [] "b" GoType.str = Except.ok (GoValue.str "") :=
  ⟨C5_amended_argument_marshaling.1 ["a"] [] "a" GoType.int rfl
      (by decide),
   (C5_amended_argument_marshaling.2.1 ["a"] [] "b" rfl (by decide)).1⟩

/-! ## Claim C6 -/

/-- Claim C6: tool calls of one assistant turn are dispatched sequentially
in the order the model returned them, and the resulting tool-result
messages appear in history in exactly that order: the dispatch loop
appends the in-order map of toolResultMessage over the ToolCall list
(first conjunct); the blocking loop's tool_call branch appends the
assistant message then runs exactly that dispatch loop on the returned
list (second conjunct); and the streaming turn does the same on the
captured list (third conjunct). -/
theorem C6_tool_result_order :
    (∀ (a : Agent) (tcs : List ToolCall),
      (dispatchLoop a tcs).messages
        = a.messages ++ tcs.map (toolResultMessage (Agent.getAllTools a).2))
    ∧ (∀ (model : List Message → ModelReply) (fuel : Nat) (a : Agent)
        (resp : ModelResponse),
      model a.messages = ModelReply.ok resp → resp.event = "tool_call" →
      runLoop model (fuel + 1) a
        = runLoop model fuel (dispatchLoop
            { a with messages := a.messages ++
                [{ role := "assistant", content := resp.data,
                   toolCalls := resp.toolCalls }] } resp.toolCalls))
    ∧ (∀ (a : Agent) (events : List ModelResponse),
      (consumeStream events).2.1 ≠ [] →
      streamTurn a events
        = (dispatchLoop
            { a with messages := a.messages ++
                [{ role := "assistant", content := (consumeStream events).1,
                   toolCalls := (consumeStream events).2.1 }] }
            (consumeStream events).2.1,
           (consumeStream events).2.2, true)) :=
  ⟨fun a tcs => dispatchLoop_messages tcs a, runLoop_toolCall_step,
   streamTurn_toolCall⟩

/-- Witness for C6_tool_result_order: one blocking tool_call step and one
streaming turn at concrete inputs. -/
theorem C6_witness :
    runLoop modelToolThenComplete (0 + 1)
        { messages := [{ role := "user", content := "q" }], isInit := true }
      = runLoop modelToolThenComplete 0 (dispatchLoop
          { messages := [{ role := "user", content := "q" },
              { role := "assistant", toolCalls := [toolCallCalc] }],
            isInit := true } [toolCallCalc])
    ∧ streamTurn agent0 eventsTwoToolCalls
      = (dispatchLoop
          { agent0 with messages := agent0.messages ++
              [{ role := "assistant",
                 content := (consumeStream eventsTwoToolCalls).1,
                 toolCalls := (consumeStream eventsTwoToolCalls).2.1 }] }
          (consumeStream eventsTwoToolCalls).2.1,
         (consumeStream eventsTwoToolCalls).2.2, true) :=
  ⟨C6_tool_result_order.2.1 modelToolThenComplete 0
      { messages := [{ role := "user", content := "q" }], isInit := true }
      { event := "tool_call", toolCalls := [toolCallCalc] } rfl rfl,
   C6_tool_result_order.2.2 agent0 eventsTwoToolCalls (by decide)⟩

/-! ## Claim C7 -/

/-- Claim C7: a tool that is not found or whose executor fails never aborts
the run: the tool-result message for a ToolCall whose name is not in the
registry carries the descriptive not-found text (first conjunct), the one
for a failing executor carries the descriptive error text (second
conjunct), every tool-result message carries the tool role and the
originating ToolCall's id (third conjunct), and the dispatch loop appends
exactly one message per ToolCall — it continues past failures to the end
of the list (fourth conjunct). -/
theorem C7_tool_errors_recovered :
    (∀ (ts : List Tool) (tc : ToolCall), findTool ts tc.name = none →
      toolResultMessage ts tc
        = { role := "tool",
            content := "Error: tool " ++ tc.name ++ " not found",
            toolCallId := tc.id })
    ∧ (∀ (ts : List Tool) (tc : ToolCall) (t : Tool) (e : String),
        findTool ts tc.name = some t →
        t.execute tc.arguments = Except.error e →
        toolResultMessage ts tc
          = { role := "tool", content := "Error: " ++ e,
              toolCallId := tc.id })
    ∧ (∀ (ts : List Tool) (tc : ToolCall),
        (toolResultMessage ts tc).role = "tool"
        ∧ (toolResultMessage ts tc).toolCallId = tc.id)
    ∧ (∀ (a : Agent) (tcs : List ToolCall),
        (dispatchLoop a tcs).messages.length
          = a.messages.length + tcs.length) := by
  refine ⟨?_, ?_, ?_, dispatchLoop_length⟩
  · intro ts tc h
    rw [toolResultMessage, h]
  · intro ts tc t e hf he
    simp [toolResultMessage, hf, he]
  · intro ts tc
    unfold toolResultMessage
    split
    · exact ⟨rfl, rfl⟩
    · split
      · exact ⟨rfl, rfl⟩
      · exact ⟨rfl, rfl⟩

/-- Witness for C7_tool_errors_recovered: a not-found lookup and a failing
executor, at concrete inputs. -/
theorem C7_witness :
    toolResultMessage [] toolCallCalc
      = { role := "tool",
          content := "Error: tool " ++ toolCallCalc.name ++ " not found",
          toolCallId := toolCallCalc.id }
    ∧ toolResultMessage [toolBroken] toolCallCalc
      = { role := "tool", content := "Error: " ++ "exploded",
          toolCallId := toolCallCalc.id } :=
  ⟨C7_tool_errors_recovered.1 [] toolCallCalc rfl,
   C7_tool_errors_recovered.2.1 [toolBroken] toolCallCalc toolBroken
      "exploded" rfl rfl⟩

/-! ## Claim C8 -/

/-- Claim C8 counterexample: two single-tool bundles sharing the name x
flatten to a list with two tools named x — the flattened list is not
name-unique, contradicting the claim. -/
theorem C8_counterexample :
    (Agent.getAllTools dupAgent).2.map Tool.name = ["x", "x"]
    ∧ ¬ ((Agent.getAllTools dupAgent).2.map Tool.name).Nodup :=
  ⟨rfl, by decide⟩

/-- Claim C8 (amended): the computation is cached per registry instance —
calling GetAllTools on its own result returns the identical agent and
list, so every later lookup uses the same list — and on a fresh registry
the computed list is the concatenation, in bundle order, of each bundle's
actual contribution: its tool for a single-Tool bundle, and one
zero-valued Tool for any other bundle, whose own tools are discarded by
the shadowed type-assertion variable in processTools. Neither
name-uniqueness nor genuine flattening of multi-tool bundles is
delivered. -/
theorem C8_amended_flatten_cached :
    (∀ a : Agent, Agent.getAllTools (Agent.getAllTools a).1
        = Agent.getAllTools a)
    ∧ (∀ a : Agent, a.toolsCache = [] →
        (Agent.getAllTools a).2 = (a.tools.map kitTools).flatten) :=
  ⟨getAllTools_idem, getAllTools_fresh⟩

/-- Witness for C8_amended_flatten_cached: at the duplicate-name agent,
and at an agent with one two-tool bundle, whose computed list is a single
zero Tool rather than the bundle's tools. -/
theorem C8_witness :
    (Agent.getAllTools dupAgent).2 = (dupAgent.tools.map kitTools).flatten
    ∧ (Agent.getAllTools { tools := [ToolKit.kit [toolX, toolX2]] }).2
        = [zeroTool] :=
  ⟨C8_amended_flatten_cached.2 dupAgent rfl,
   C8_amended_flatten_cached.2 { tools := [ToolKit.kit [toolX, toolX2]] } rfl⟩

/-! ## Claim C9 -/

/-- Claim C9: initializing twice produces exactly one system message with
identical content — Init is idempotent (first conjunct: a second Init
returns the agent, history included, unchanged), and on a fresh agent with
empty history and a nonempty composed system message, Init makes the
history exactly that single system message, which is its first message and
carries the system role (second and third conjuncts). -/
theorem C9_init_idempotent :
    (∀ a : Agent, Agent.init (Agent.init a) = Agent.init a)
    ∧ (∀ a : Agent, a.isInit = false → a.messages = [] →
        (Agent.getSystemMessage a).content ≠ "" →
        (Agent.init a).messages = [Agent.getSystemMessage a])
    ∧ (∀ a : Agent, (Agent.getSystemMessage a).role = "system") :=
  ⟨init_idem, init_messages_fresh, getSystemMessage_role⟩

/-- Witness for C9_init_idempotent at an agent with a description. -/
theorem C9_witness :
    (Agent.init helpfulAgent).messages
        = [Agent.getSystemMessage helpfulAgent]
    ∧ Agent.init (Agent.init helpfulAgent) = Agent.init helpfulAgent :=
  ⟨C9_init_idempotent.2.1 helpfulAgent rfl rfl (by decide),
   C9_init_idempotent.1 helpfulAgent⟩

/-! ## Claim C10 -/

/-- Claim C10: when a stream delivers several tool_call events before the
end event, only the ToolCall list of the last one is captured — whatever
tool_call events preceded it and whatever the accumulator held, the
captured list is the last event's list (first conjunct) — and the
streaming turn records exactly the captured list on the assistant message
and dispatches exactly it (second conjunct). -/
theorem C10_last_tool_call_wins :
    (∀ (xs : List ModelResponse) (e : ModelResponse)
        (ys : List ModelResponse),
      e.event = "tool_call" →
      (∀ x ∈ xs, x.event ≠ "end") →
      (∀ y ∈ ys.takeWhile (fun y => y.event != "end"),
        y.event ≠ "tool_call") →
      (consumeStream (xs ++ e :: ys)).2.1 = e.toolCalls)
    ∧ (∀ (a : Agent) (events : List ModelResponse),
      (consumeStream events).2.1 ≠ [] →
      (streamTurn a events).1
        = dispatchLoop
            { a with messages := a.messages ++
                [{ role := "assistant",
                   content := (consumeStream events).1,
                   toolCalls := (consumeStream events).2.1 }] }
            (consumeStream events).2.1) := by
  constructor
  · intro xs e ys he hxs hys
    rw [consumeStream, consumeGo_captured]
    exact capFold_last e ys he hys xs hxs []
  · intro a events h
    rw [streamTurn_toolCall a events h]

/-- Witness for C10_last_tool_call_wins: a stream with two tool_call
events captures the second one's list. -/
theorem C10_witness :
    (consumeStream eventsTwoToolCalls).2.1 = [toolCallB]
    ∧ (streamTurn agent0 eventsTwoToolCalls).1
        = dispatchLoop
            { agent0 with messages := agent0.messages ++
                [{ role := "assistant",
                   content := (consumeStream eventsTwoToolCalls).1,
                   toolCalls := (consumeStream eventsTwoToolCalls).2.1 }] }
            (consumeStream eventsTwoToolCalls).2.1 :=
  ⟨C10_last_tool_call_wins.1
      [{ event := "tool_call", toolCalls := [toolCallA] }]
      { event := "tool_call", toolCalls := [toolCallB] }
      [{ event := "end" }] rfl (by decide) (by decide),
   C10_last_tool_call_wins.2 agent0 eventsTwoToolCalls (by decide)⟩

end Hermes
